import Mathlib

/-!
Verification of the shortcut-registry mixin (`spyder/api/shortcuts.py`) and
the remote-client installer helper
(`spyder/plugins/remoteclient/utils/installation.py`) of the Spyder excerpt.

The mixin delegates storage to a configuration manager (`CONF`) and the GUI
wiring to Qt's `QShortcut`; neither is part of the excerpt, so both are
modelled from the spec's external-interface contracts (spec sections 2 and 6).
Python exceptions are embedded as `Except` results.
-/

/- ### Installer helper: spyder/plugins/remoteclient/utils/installation.py -/

/-- Error raised by `get_installer_command`; embeds Python's
`NotImplementedError` with its message. -/
inductive InstallerError where
  | notImplementedError (msg : String)
deriving DecidableEq

/-- `PACKAGE_NAME = "spyder-remote-services"` from installation.py. -/
def PACKAGE_NAME : String := "spyder-remote-services"

/-- `PACKAGE_VERSION = "0.1.3"` from installation.py. -/
def PACKAGE_VERSION : String := "0.1.3"

/-- `SCRIPT_URL` f-string from installation.py. -/
def SCRIPT_URL : String :=
  "https://raw.githubusercontent.com/spyder-ide/" ++ PACKAGE_NAME ++ "/master/scripts"

/-- `get_installer_command(platform)` from installation.py.

`spyder_kernels_reqver` stands for `SPYDER_KERNELS_REQVER`, imported there
from `spyder.dependencies`, which is outside the excerpt; the spec describes
it only as "a required companion package's version requirement", so it is
kept as an arbitrary string parameter.  The returned f-string is embedded as
the same left-to-right concatenation the source performs. -/
def get_installer_command (spyder_kernels_reqver : String) (platform : String) :
    Except InstallerError String :=
  if platform = "win" then
    .error (.notImplementedError "Windows is not supported yet")
  else
    .ok ("\"$\x7bSHELL\x7d\" <(curl -L " ++ SCRIPT_URL ++ "/installer.sh) \""
      ++ PACKAGE_VERSION ++ "\" \"" ++ spyder_kernels_reqver ++ "\"")

/-- Claim C7: `get_installer_command("win")` raises `NotImplementedError`
("Windows is not supported yet"), and for every other platform value the
function returns normally instead of raising. -/
theorem installer_win_raises_only (spyder_kernels_reqver : String) :
    get_installer_command spyder_kernels_reqver "win"
      = .error (.notImplementedError "Windows is not supported yet") ∧
    ∀ p : String, p ≠ "win" →
      ∃ s : String, get_installer_command spyder_kernels_reqver p = .ok s := by
  constructor
  · rfl
  · intro p hp
    unfold get_installer_command
    rw [if_neg hp]
    exact ⟨_, rfl⟩

/-- Witness for C7 at concrete inputs: the "win" branch errors and the
"linux" branch returns a value. -/
theorem installer_win_raises_only_witness :
    get_installer_command "1.0" "win"
      = .error (.notImplementedError "Windows is not supported yet") ∧
    ∃ s : String, get_installer_command "1.0" "linux" = .ok s :=
  ⟨(installer_win_raises_only "1.0").1,
   (installer_win_raises_only "1.0").2 "linux" (by decide)⟩

/-- Claim C8: `get_installer_command("linux")` returns a command string that
contains the fixed package version `"0.1.3"` and the companion-package
requirement `SPYDER_KERNELS_REQVER` verbatim as substrings. -/
theorem installer_linux_contains_versions (spyder_kernels_reqver : String) :
    ∃ out : String,
      get_installer_command spyder_kernels_reqver "linux" = .ok out ∧
      List.IsInfix PACKAGE_VERSION.data out.data ∧
      List.IsInfix spyder_kernels_reqver.data out.data := by
  refine ⟨_, rfl, ?_, ?_⟩
  · exact ⟨("\"$\x7bSHELL\x7d\" <(curl -L " ++ SCRIPT_URL ++ "/installer.sh) \"").data,
      ("\" \"" ++ spyder_kernels_reqver ++ "\"").data, by
        simp [String.data_append, List.append_assoc]⟩
  · exact ⟨("\"$\x7bSHELL\x7d\" <(curl -L " ++ SCRIPT_URL ++ "/installer.sh) \""
        ++ PACKAGE_VERSION ++ "\" \"").data,
      ("\"" : String).data, by simp [String.data_append, List.append_assoc]⟩

/-- Claim C9: for any two platform strings other than `"win"`,
`get_installer_command` returns the identical command string; the result does
not depend on the platform argument beyond the `"win"` check. -/
theorem installer_platform_independent (spyder_kernels_reqver p1 p2 : String)
    (h1 : p1 ≠ "win") (h2 : p2 ≠ "win") :
    get_installer_command spyder_kernels_reqver p1
      = get_installer_command spyder_kernels_reqver p2 := by
  unfold get_installer_command
  rw [if_neg h1, if_neg h2]

/-- Witness for C9 at concrete inputs "linux" and "macos". -/
theorem installer_platform_independent_witness :
    get_installer_command "1.0" "linux" = get_installer_command "1.0" "macos" :=
  installer_platform_independent "1.0" "linux" "macos" (by decide) (by decide)

/- ### Configuration store: external collaborator of spyder/api/shortcuts.py -/

/-- Key under which the configuration store persists a shortcut sequence.
Modelled from the spec: the ConfigurationStore "persists shortcut key
sequences under (context, name, optional plugin)" (spec section 2). -/
structure ConfKey where
  context : String
  name : String
  plugin_name : Option String
deriving DecidableEq

/-- The NotFound-style error of the configuration layer; the source docstrings
name it `configparser.NoOptionError`. -/
inductive ConfError where
  | noOptionError
deriving DecidableEq

/-- Modelled from the spec: the ConfigurationStore state, a partial map from
(context, name, optional plugin) keys to key-sequence strings.  The store
itself (`CONF` from `spyder.config.manager`) is outside the excerpt. -/
def ConfStore : Type := ConfKey → Option String

/-- Modelled from the spec: `CONF.get_shortcut(context, name, plugin_name)`
"fails with a NotFound-style error when the (context, name[, plugin]) key is
absent" (spec section 6) and otherwise returns the stored string. -/
def ConfStore.get_shortcut (conf : ConfStore) (context name : String)
    (plugin_name : Option String) : Except ConfError String :=
  match conf ⟨context, name, plugin_name⟩ with
  | some s => .ok s
  | none => .error .noOptionError

/-- Modelled from the spec: `CONF.set_shortcut(context, name, value,
plugin_name)` overwrites the binding for an existing key and "fail[s] with a
NotFound-style error when the (context, name[, plugin]) key is absent"
(spec sections 4.1 and 6): it is an update, not a creation. -/
def ConfStore.set_shortcut (conf : ConfStore) (context name value : String)
    (plugin_name : Option String) : Except ConfError ConfStore :=
  match conf ⟨context, name, plugin_name⟩ with
  | some _ => .ok (fun k => if k = ⟨context, name, plugin_name⟩ then some value else conf k)
  | none => .error .noOptionError

/- ### Qt collaborator: QShortcut / QKeySequence / Qt.ShortcutContext -/

/-- Qt's shortcut activation scopes (the `Qt.ShortcutContext` enum), modelled
from the spec's WidgetShortcutBinder contract: it "supports an
activation-scope setting, here fixed to 'widget subtree'" (spec section 6). -/
inductive ShortcutContext where
  | windowShortcut
  | applicationShortcut
  | widgetShortcut
  | widgetWithChildrenShortcut
deriving DecidableEq

/-- Modelled from the spec: the WidgetShortcutBinder (Qt's `QShortcut`),
"constructed from a parsed key sequence and a target widget; exposes an
activation event that can be connected to a zero-argument callback; supports
an activation-scope setting" (spec section 6).  `W` is the widget type and
`Cb` the callback type, both opaque to the registry. -/
structure QShortcut (W Cb : Type) where
  keySequence : String
  parent : W
  connections : List Cb
  shortcutContext : ShortcutContext

/-- `QShortcut(QKeySequence(keystr), widget)`: a fresh shortcut object for a
parsed key sequence and parent widget; Qt's default activation scope is
`Qt.WindowShortcut` and nothing is connected yet. -/
def QShortcut.create {W Cb : Type} (keystr : String) (widget : W) : QShortcut W Cb :=
  ⟨keystr, widget, [], .windowShortcut⟩

/-- `qsc.activated.connect(triggered)`: connect a callback to the activation
event. -/
def QShortcut.connectActivated {W Cb : Type} (qsc : QShortcut W Cb) (triggered : Cb) :
    QShortcut W Cb :=
  ⟨qsc.keySequence, qsc.parent, qsc.connections ++ [triggered], qsc.shortcutContext⟩

/-- `qsc.setContext(ctx)`: set the activation scope. -/
def QShortcut.setContext {W Cb : Type} (qsc : QShortcut W Cb) (ctx : ShortcutContext) :
    QShortcut W Cb :=
  ⟨qsc.keySequence, qsc.parent, qsc.connections, ctx⟩

/- ### Registration inventory: spyder.plugins.shortcuts.utils collaborators -/

/-- Modelled from the spec: the RegisteredWidgetShortcut record
(`ShortcutData` from `spyder.plugins.shortcuts.utils`, outside the excerpt):
"a record of (name, context) pairs for which a widget-level binding has been
created", compared by value equality (spec section 3).  The call site passes
`qobject=None`, so no shortcut-object reference is part of the record. -/
structure ShortcutData where
  name : String
  context : String
deriving DecidableEq

/- ### SpyderShortcutsMixin: spyder/api/shortcuts.py -/

/-- `SpyderShortcutsMixin.get_shortcut(name, context, plugin_name)` from
shortcuts.py.  `CONF_SECTION` is the calling widget's `self.CONF_SECTION`
and `conf` the process-wide `CONF` state, both passed explicitly. -/
def SpyderShortcutsMixin.get_shortcut (CONF_SECTION : String) (conf : ConfStore)
    (name : String) (context : Option String) (plugin_name : Option String) :
    Except ConfError String :=
  let context := match context with
    | none => CONF_SECTION
    | some c => c
  conf.get_shortcut context name plugin_name

/-- `SpyderShortcutsMixin.set_shortcut(shortcut, name, context, plugin_name)`
from shortcuts.py; returns the updated `CONF` state on success. -/
def SpyderShortcutsMixin.set_shortcut (CONF_SECTION : String) (conf : ConfStore)
    (shortcut name : String) (context : Option String) (plugin_name : Option String) :
    Except ConfError ConfStore :=
  let context := match context with
    | none => CONF_SECTION
    | some c => c
  conf.set_shortcut context name shortcut plugin_name

/-- The effects of one `register_shortcut_for_widget` call: the `QShortcut`
object it created and the updated `SHORTCUTS_FOR_WIDGETS_DATA` inventory. -/
structure RegisterResult (W Cb : Type) where
  qsc : QShortcut W Cb
  shortcuts_for_widgets_data : List ShortcutData

/-- `SpyderShortcutsMixin.register_shortcut_for_widget(name, triggered,
widget, context)` from shortcuts.py.  `selfWidget` is the mixin instance
itself in its role as a `QWidget` (the `self` fallback for `widget`), and
`shortcuts_for_widgets_data` is the process-wide `SHORTCUTS_FOR_WIDGETS_DATA`
list before the call. -/
def SpyderShortcutsMixin.register_shortcut_for_widget {W Cb : Type}
    (CONF_SECTION : String) (selfWidget : W) (conf : ConfStore)
    (shortcuts_for_widgets_data : List ShortcutData)
    (name : String) (triggered : Cb) (widget : Option W) (context : Option String) :
    Except ConfError (RegisterResult W Cb) := do
  let context := match context with
    | none => CONF_SECTION
    | some c => c
  let widget := match widget with
    | none => selfWidget
    | some w => w
  let keystr ← SpyderShortcutsMixin.get_shortcut CONF_SECTION conf name (some context) none
  let qsc : QShortcut W Cb := QShortcut.create keystr widget
  let qsc := qsc.connectActivated triggered
  let qsc := qsc.setContext .widgetWithChildrenShortcut
  let data : ShortcutData := ⟨name, context⟩
  let inventory :=
    if data ∈ shortcuts_for_widgets_data then shortcuts_for_widgets_data
    else shortcuts_for_widgets_data ++ [data]
  return ⟨qsc, inventory⟩

/- ### Helper lemmas shared by the claim proofs -/

/-- Unfolding equation for `register_shortcut_for_widget`: its result is
determined by the store entry at the resolved (context, name, plugin=None)
key. -/
theorem register_shortcut_for_widget_eq {W Cb : Type} (CONF_SECTION : String)
    (selfWidget : W) (conf : ConfStore) (inv : List ShortcutData)
    (name : String) (triggered : Cb) (widget : Option W) (context : Option String) :
    SpyderShortcutsMixin.register_shortcut_for_widget CONF_SECTION selfWidget conf inv
        name triggered widget context =
      match conf ⟨context.getD CONF_SECTION, name, none⟩ with
      | some keystr =>
          .ok ⟨⟨keystr, widget.getD selfWidget, [triggered], .widgetWithChildrenShortcut⟩,
            if (⟨name, context.getD CONF_SECTION⟩ : ShortcutData) ∈ inv then inv
            else inv ++ [⟨name, context.getD CONF_SECTION⟩]⟩
      | none => .error .noOptionError := by
  cases context <;> cases widget <;>
    simp only [SpyderShortcutsMixin.register_shortcut_for_widget,
      SpyderShortcutsMixin.get_shortcut, ConfStore.get_shortcut, Option.getD,
      QShortcut.create, QShortcut.connectActivated, QShortcut.setContext,
      List.nil_append, bind, Except.bind, pure, Except.pure] <;>
    cases conf _ <;> rfl

/-- After a successful `ConfStore.set_shortcut`, reading the same key back
returns the value just written. -/
theorem ConfStore.get_after_set (conf conf2 : ConfStore) (c name value : String)
    (plugin_name : Option String)
    (h : conf.set_shortcut c name value plugin_name = .ok conf2) :
    conf2.get_shortcut c name plugin_name = .ok value := by
  unfold ConfStore.set_shortcut at h
  cases hc : conf ⟨c, name, plugin_name⟩ with
  | none => rw [hc] at h; exact absurd h (by simp)
  | some s =>
    rw [hc] at h
    simp only [Except.ok.injEq] at h
    subst h
    unfold ConfStore.get_shortcut
    simp

/- ### Claim theorems for the shortcut registry -/

/-- Claim C1: write-then-read consistency — for every (name, context,
plugin) triple, after a successful `set_shortcut(seq, name, context,
plugin)`, a subsequent `get_shortcut(name, context, plugin)` on the updated
store returns `seq`. -/
theorem set_then_get_shortcut (CONF_SECTION : String) (conf conf2 : ConfStore)
    (seq name : String) (context plugin_name : Option String)
    (h : SpyderShortcutsMixin.set_shortcut CONF_SECTION conf seq name context plugin_name
        = .ok conf2) :
    SpyderShortcutsMixin.get_shortcut CONF_SECTION conf2 name context plugin_name
      = .ok seq := by
  cases context with
  | none => exact ConfStore.get_after_set conf conf2 CONF_SECTION name seq plugin_name h
  | some c => exact ConfStore.get_after_set conf conf2 c name seq plugin_name h

/-- A store holding one binding, ("editor", "run cell") ↦ "Ctrl+Enter". -/
def confC1 : ConfStore :=
  fun k => if k = ⟨"editor", "run cell", none⟩ then some "Ctrl+Enter" else none

/-- `confC1` after `set_shortcut("Ctrl+Shift+Enter", "run cell", "editor")`. -/
def confC1' : ConfStore :=
  fun k => if k = ⟨"editor", "run cell", none⟩ then some "Ctrl+Shift+Enter" else confC1 k

/-- Witness for C1: writing "Ctrl+Shift+Enter" over the existing "run cell"
binding succeeds and reading it back returns the new sequence. -/
theorem set_then_get_shortcut_witness :
    SpyderShortcutsMixin.get_shortcut "sec" confC1' "run cell" (some "editor") none
      = .ok "Ctrl+Shift+Enter" :=
  set_then_get_shortcut "sec" confC1 confC1' "Ctrl+Shift+Enter" "run cell"
    (some "editor") none rfl

/-- A NotFound result of the store lookup for an absent key. -/
theorem ConfStore.get_shortcut_eq_error (conf : ConfStore) (c name : String)
    (plugin_name : Option String) (h : conf ⟨c, name, plugin_name⟩ = none) :
    conf.get_shortcut c name plugin_name = .error .noOptionError := by
  unfold ConfStore.get_shortcut
  rw [h]

/-- A NotFound result of the store update for an absent key. -/
theorem ConfStore.set_shortcut_eq_error (conf : ConfStore) (c name value : String)
    (plugin_name : Option String) (h : conf ⟨c, name, plugin_name⟩ = none) :
    conf.set_shortcut c name value plugin_name = .error .noOptionError := by
  unfold ConfStore.set_shortcut
  rw [h]

/-- Claim C2: the registration inventory never acquires duplicate (name,
context) records — starting from a duplicate-free inventory, one
`register_shortcut_for_widget` call keeps it duplicate-free and leaves
exactly one entry for the registered (name, context) pair, and a second
call with identical name and context leaves the inventory unchanged
(membership decided by value equality). -/
theorem register_inventory_idempotent {W Cb : Type} (CONF_SECTION : String)
    (selfWidget : W) (conf : ConfStore) (inv : List ShortcutData)
    (name : String) (triggered : Cb) (widget : Option W) (context : Option String)
    (r1 r2 : RegisterResult W Cb)
    (hnd : inv.Nodup)
    (h1 : SpyderShortcutsMixin.register_shortcut_for_widget CONF_SECTION selfWidget conf inv
        name triggered widget context = .ok r1)
    (h2 : SpyderShortcutsMixin.register_shortcut_for_widget CONF_SECTION selfWidget conf
        r1.shortcuts_for_widgets_data name triggered widget context = .ok r2) :
    r1.shortcuts_for_widgets_data.Nodup ∧
    r1.shortcuts_for_widgets_data.count ⟨name, context.getD CONF_SECTION⟩ = 1 ∧
    r2.shortcuts_for_widgets_data = r1.shortcuts_for_widgets_data := by
  rw [register_shortcut_for_widget_eq] at h1 h2
  cases hc : conf ⟨context.getD CONF_SECTION, name, none⟩ with
  | none => rw [hc] at h1; exact absurd h1 (by simp)
  | some keystr =>
    rw [hc] at h1 h2
    simp only [Except.ok.injEq] at h1
    subst h1
    by_cases hm : (⟨name, context.getD CONF_SECTION⟩ : ShortcutData) ∈ inv
    · simp only [if_pos hm] at h2 ⊢
      simp only [Except.ok.injEq] at h2
      subst h2
      exact ⟨hnd, List.count_eq_one_of_mem hnd hm, rfl⟩
    · simp only [if_neg hm] at h2 ⊢
      have hmem : (⟨name, context.getD CONF_SECTION⟩ : ShortcutData) ∈ inv ++
          [(⟨name, context.getD CONF_SECTION⟩ : ShortcutData)] := by simp
      rw [if_pos hmem] at h2
      simp only [Except.ok.injEq] at h2
      subst h2
      refine ⟨?_, ?_, rfl⟩
      · refine hnd.append (List.nodup_singleton _) ?_
        intro a ha hb
        simp only [List.mem_singleton] at hb
        exact hm (hb ▸ ha)
      · rw [List.count_append]
        simp [List.count_eq_zero.mpr hm]

/-- A store holding one binding, ("editor", "run cell") ↦ "Ctrl+Enter". -/
def confC2 : ConfStore :=
  fun k => if k = ⟨"editor", "run cell", none⟩ then some "Ctrl+Enter" else none

/-- The result of registering "run cell" on widget 7 against `confC2`. -/
def regC2 : RegisterResult Nat Unit :=
  ⟨⟨"Ctrl+Enter", 7, [()], .widgetWithChildrenShortcut⟩, [⟨"run cell", "editor"⟩]⟩

/-- Witness for C2: starting from the empty inventory, registering
"run cell" twice on the same widget yields a duplicate-free inventory with
exactly one ("run cell", "editor") entry, unchanged by the second call. -/
theorem register_inventory_idempotent_witness :
    regC2.shortcuts_for_widgets_data.Nodup ∧
    regC2.shortcuts_for_widgets_data.count ⟨"run cell", "editor"⟩ = 1 ∧
    regC2.shortcuts_for_widgets_data = regC2.shortcuts_for_widgets_data :=
  register_inventory_idempotent "sec" 7 confC2 [] "run cell" () none (some "editor")
    regC2 regC2 List.nodup_nil rfl rfl

/-- Claim C3: when the store holds no binding for the resolved (context,
name) key (with no plugin disambiguator), `get_shortcut` fails with the
store's NotFound error, and `register_shortcut_for_widget` surfaces that
same error to the caller instead of intercepting it. -/
theorem notfound_always_surfaced {W Cb : Type} (CONF_SECTION : String)
    (selfWidget : W) (conf : ConfStore) (inv : List ShortcutData)
    (name : String) (triggered : Cb) (widget : Option W) (context : Option String)
    (h : conf ⟨context.getD CONF_SECTION, name, none⟩ = none) :
    SpyderShortcutsMixin.get_shortcut CONF_SECTION conf name context none
      = .error .noOptionError ∧
    SpyderShortcutsMixin.register_shortcut_for_widget CONF_SECTION selfWidget conf inv
        name triggered widget context = .error .noOptionError := by
  constructor
  · cases context with
    | none => exact ConfStore.get_shortcut_eq_error conf CONF_SECTION name none h
    | some c => exact ConfStore.get_shortcut_eq_error conf c name none h
  · rw [register_shortcut_for_widget_eq, h]

/-- The empty configuration store. -/
def confC3 : ConfStore := fun _ => none

/-- Witness for C3: against the empty store, both operations report
NotFound for ("editor", "run cell"). -/
theorem notfound_always_surfaced_witness :
    SpyderShortcutsMixin.get_shortcut "sec" confC3 "run cell" (some "editor") none
      = .error .noOptionError ∧
    SpyderShortcutsMixin.register_shortcut_for_widget "sec" (3 : Nat) confC3 [] "run cell"
        () (none : Option Nat) (some "editor") = .error .noOptionError :=
  notfound_always_surfaced "sec" 3 confC3 [] "run cell" () none (some "editor") rfl

/-- Claim C4: `get_shortcut` with no context argument returns the same
result (value or error) as `get_shortcut` with the calling widget's own
`CONF_SECTION` passed explicitly as the context. -/
theorem get_shortcut_default_context (CONF_SECTION : String) (conf : ConfStore)
    (name : String) (plugin_name : Option String) :
    SpyderShortcutsMixin.get_shortcut CONF_SECTION conf name none plugin_name
      = SpyderShortcutsMixin.get_shortcut CONF_SECTION conf name (some CONF_SECTION)
          plugin_name := rfl

/-- Claim C5: `register_shortcut_for_widget` resolves an omitted widget to
the registry-owning widget itself (`widget.getD selfWidget`), and the
created shortcut object is parented to that resolved widget, has its
activation scope set to `Qt.WidgetWithChildrenShortcut` (widget subtree, not
global), and has the `triggered` callback connected to its activation
event. -/
theorem register_binds_widget_subtree {W Cb : Type} (CONF_SECTION : String)
    (selfWidget : W) (conf : ConfStore) (inv : List ShortcutData)
    (name : String) (triggered : Cb) (widget : Option W) (context : Option String)
    (r : RegisterResult W Cb)
    (h : SpyderShortcutsMixin.register_shortcut_for_widget CONF_SECTION selfWidget conf inv
        name triggered widget context = .ok r) :
    r.qsc.parent = widget.getD selfWidget ∧
    r.qsc.shortcutContext = .widgetWithChildrenShortcut ∧
    r.qsc.connections = [triggered] := by
  rw [register_shortcut_for_widget_eq] at h
  cases hc : conf ⟨context.getD CONF_SECTION, name, none⟩ with
  | none => rw [hc] at h; exact absurd h (by simp)
  | some keystr =>
    rw [hc] at h
    simp only [Except.ok.injEq] at h
    subst h
    exact ⟨rfl, rfl, rfl⟩

/-- A store holding one binding, ("editor", "run cell") ↦ "Ctrl+Enter". -/
def confC5 : ConfStore :=
  fun k => if k = ⟨"editor", "run cell", none⟩ then some "Ctrl+Enter" else none

/-- The result of registering "run cell" with the widget argument omitted:
the shortcut is parented to the calling widget 5 itself. -/
def regC5 : RegisterResult Nat Unit :=
  ⟨⟨"Ctrl+Enter", 5, [()], .widgetWithChildrenShortcut⟩, [⟨"run cell", "editor"⟩]⟩

/-- Witness for C5: with the widget argument omitted, the created shortcut
is parented to the calling widget, scoped to the widget subtree, and
connected to the callback. -/
theorem register_binds_widget_subtree_witness :
    regC5.qsc.parent = (none : Option Nat).getD 5 ∧
    regC5.qsc.shortcutContext = .widgetWithChildrenShortcut ∧
    regC5.qsc.connections = [()] :=
  register_binds_widget_subtree "sec" 5 confC5 [] "run cell" () none (some "editor")
    regC5 rfl

/-- Claim C6: `set_shortcut` is update-only — when the store holds no entry
for the resolved (context, name, plugin) key, it fails with NotFound instead
of creating a new binding. -/
theorem set_shortcut_update_only (CONF_SECTION : String) (conf : ConfStore)
    (shortcut name : String) (context plugin_name : Option String)
    (h : conf ⟨context.getD CONF_SECTION, name, plugin_name⟩ = none) :
    SpyderShortcutsMixin.set_shortcut CONF_SECTION conf shortcut name context plugin_name
      = .error .noOptionError := by
  cases context with
  | none => exact ConfStore.set_shortcut_eq_error conf CONF_SECTION name shortcut plugin_name h
  | some c => exact ConfStore.set_shortcut_eq_error conf c name shortcut plugin_name h

/-- The empty configuration store. -/
def confC6 : ConfStore := fun _ => none

/-- Witness for C6: writing a sequence for the absent ("editor",
"run cell") entry fails with NotFound. -/
theorem set_shortcut_update_only_witness :
    SpyderShortcutsMixin.set_shortcut "sec" confC6 "Ctrl+Enter" "run cell"
        (some "editor") none = .error .noOptionError :=
  set_shortcut_update_only "sec" confC6 "Ctrl+Enter" "run cell" (some "editor") none rfl

/-- Claim C10: `register_shortcut_for_widget` never supplies a plugin name —
its lookup is `get_shortcut(name, context)` with the plugin disambiguator
absent, so its outcome depends on the store only through the (context, name,
plugin=None) entry (bindings stored under a plugin name are invisible to
it), and the inventory record it may add is just the (name, context) pair,
with no shortcut-object reference. -/
theorem register_plugin_disambiguator_absent {W Cb : Type} (CONF_SECTION : String)
    (selfWidget : W) (conf conf2 : ConfStore) (inv : List ShortcutData)
    (name : String) (triggered : Cb) (widget : Option W) (context : Option String)
    (hagree : conf ⟨context.getD CONF_SECTION, name, none⟩
        = conf2 ⟨context.getD CONF_SECTION, name, none⟩) :
    SpyderShortcutsMixin.register_shortcut_for_widget CONF_SECTION selfWidget conf inv
        name triggered widget context
      = SpyderShortcutsMixin.register_shortcut_for_widget CONF_SECTION selfWidget conf2 inv
          name triggered widget context ∧
    ∀ r : RegisterResult W Cb,
      SpyderShortcutsMixin.register_shortcut_for_widget CONF_SECTION selfWidget conf inv
          name triggered widget context = .ok r →
      r.shortcuts_for_widgets_data = inv ∨
      r.shortcuts_for_widgets_data = inv ++ [⟨name, context.getD CONF_SECTION⟩] := by
  constructor
  · rw [register_shortcut_for_widget_eq, register_shortcut_for_widget_eq, hagree]
  · intro r hr
    rw [register_shortcut_for_widget_eq] at hr
    cases hc : conf ⟨context.getD CONF_SECTION, name, none⟩ with
    | none => rw [hc] at hr; exact absurd hr (by simp)
    | some keystr =>
      rw [hc] at hr
      simp only [Except.ok.injEq] at hr
      subst hr
      by_cases hm : (⟨name, context.getD CONF_SECTION⟩ : ShortcutData) ∈ inv
      · left
        simp [hm]
      · right
        simp [hm]

/-- A store whose only "run cell" binding lives under plugin name "plug". -/
def confC10 : ConfStore :=
  fun k => if k = ⟨"editor", "run cell", some "plug"⟩ then some "Ctrl+Enter" else none

/-- The empty configuration store. -/
def confC10' : ConfStore := fun _ => none

/-- Witness for C10: a binding stored only under a plugin name is invisible
to widget registration — against `confC10` the call behaves exactly as
against the empty store. -/
theorem register_plugin_disambiguator_absent_witness :
    SpyderShortcutsMixin.register_shortcut_for_widget "sec" (0 : Nat) confC10 [] "run cell"
        () (none : Option Nat) (some "editor")
      = SpyderShortcutsMixin.register_shortcut_for_widget "sec" (0 : Nat) confC10' []
          "run cell" () (none : Option Nat) (some "editor") :=
  (register_plugin_disambiguator_absent "sec" 0 confC10 confC10' [] "run cell" ()
    none (some "editor") rfl).1
